import Mathlib

/-!
Verification of the airline ticket sales system (`main.py`).

The program keeps an in-memory list of ticket records (Python dicts with a
fixed key set), persists the whole list to a JSON file after every mutation,
and exposes three operations: `create_ticket`, `search_tickets`,
`book_ticket`.  We embed the data model and the three operations below and
prove the specified properties about them.

Modelling choices:
- A ticket dict (lines 38-46 of `main.py`) becomes the structure `Ticket`.
  Python's float value for `price` is carried as `Rat` (an exact numeric
  carrier; no claim depends on floating-point rounding), `seats_left` as
  the unbounded `Int` (Python ints are unbounded and the code never clamps
  them at creation).
- `TextFileStorage` is modelled as one storage cell of type
  `Option (List Ticket)`: `none` is an absent file (`FileNotFoundError`),
  `some d` is a file holding the JSON array for `d`.  `json.dump` followed
  by `json.load` reproduces arrays of such records exactly, so the file
  content is identified with the record list itself.
- The system state (`self.tickets` plus the storage behind `self.storage`)
  is `SysState`; each method becomes a function from `SysState` (and its
  arguments) to the new state and the Python return value.
- In `create_ticket` the coercions `float(price)` / `int(seats_left)` can
  raise `ValueError`; their outcomes are passed in as `Option` values and a
  failed coercion makes the embedded function return `Except.error`,
  mirroring the uncaught exception.
-/

/-- A ticket record: the dict built at lines 38-46 of `main.py`. -/
structure Ticket where
  ticket_id : String
  flight_num : String
  origin : String
  destination : String
  date : String
  price : Rat
  seats_left : Int
  deriving Repr, DecidableEq

/-- The content of the storage file behind `TextFileStorage`:
`none` when the file does not exist, `some d` when it holds the
serialized list `d`. -/
abbrev StorageState := Option (List Ticket)

/-- `TextFileStorage.load_data` (lines 19-24): return the parsed file
content, or `[]` when the file is absent (`FileNotFoundError` branch). -/
def load_data (s : StorageState) : List Ticket :=
  s.getD []

/-- `TextFileStorage.save_data` (lines 26-28): overwrite the whole file
with the serialization of `data`. -/
def save_data (data : List Ticket) (_s : StorageState) : StorageState :=
  some data

/-- The state of an `AirlineTicketSystem` instance: `self.tickets` and the
storage cell behind `self.storage`. -/
structure SysState where
  tickets : List Ticket
  storage : StorageState
  deriving Repr, DecidableEq

/-- `AirlineTicketSystem.__init__` (lines 32-34): load the dataset once. -/
def initSystem (s : StorageState) : SysState :=
  { tickets := load_data s, storage := s }

/-- The ticket dict constructed by `create_ticket` (lines 38-46), after the
two coercions have produced `p` and `n`. -/
def mkTicket (tid fn og dst dt : String) (p : Rat) (n : Int) : Ticket :=
  { ticket_id := tid, flight_num := fn, origin := og, destination := dst,
    date := dt, price := p, seats_left := n }

/-- `AirlineTicketSystem.create_ticket` (lines 37-49).  `price?` and
`seats?` are the outcomes of Python's `float(price)` and
`int(seats_left)`: `none` means the coercion raised `ValueError`, and the
method then propagates the exception (`Except.error`) without touching the
list or the storage.  On success the ticket is appended, the full list is
saved, and the success string is returned. -/
def create_ticket (st : SysState) (tid fn og dst dt : String)
    (price? : Option Rat) (seats? : Option Int) :
    Except String (SysState × String) :=
  match price?, seats? with
  | some p, some n =>
      let ts2 := st.tickets ++ [mkTicket tid fn og dst dt p n]
      Except.ok ({ tickets := ts2, storage := save_data ts2 st.storage },
                 "Ticket created successfully")
  | _, _ => Except.error "ValueError"

/-- Model of Python's `str.lower()` used at line 53: lowercase every
character (Lean's `Char.toLower`, which covers the ASCII range the tests
exercise).  Both sides of every comparison go through the same model, so
the case-insensitivity properties are unaffected by the exact alphabet. -/
def strLower (s : String) : String :=
  ⟨s.data.map Char.toLower⟩

/-- The route test of line 53: both fields equal after lowercasing. -/
def matchesRoute (origin destination : String) (t : Ticket) : Bool :=
  (strLower t.origin == strLower origin) &&
    (strLower t.destination == strLower destination)

/-- The overloaded return value of `search_tickets`: a nonempty list of
matches, or the sentinel string of line 54. -/
inductive SearchResult where
  | found : List Ticket → SearchResult
  | notFound : String → SearchResult
  deriving Repr, DecidableEq

/-- `AirlineTicketSystem.search_tickets` (lines 52-54): filter the list by
the case-insensitive route test; an empty result is replaced by the
sentinel string. -/
def search_tickets (ts : List Ticket) (origin destination : String) :
    SearchResult :=
  let results := ts.filter (matchesRoute origin destination)
  if results.isEmpty then SearchResult.notFound "No tickets found for this route"
  else SearchResult.found results

/-- A call `system.search_tickets(o, d)` seen at the state level: the
method body only reads `self.tickets`, so the state is returned as is. -/
def searchSys (st : SysState) (origin destination : String) :
    SysState × SearchResult :=
  (st, search_tickets st.tickets origin destination)

/-- The success message of line 63, with the already-decremented count. -/
def bookMsg (tid : String) (remaining : Int) : String :=
  "Ticket " ++ tid ++ " booked successfully. Remaining seats: "
    ++ toString remaining

/-- The scan of lines 58-66 over the ticket list: returns the updated
list, the returned message, and whether the success branch (which is the
only one that calls `save_data`) was taken. -/
def book_list (tid : String) : List Ticket → List Ticket × String × Bool
  | [] => ([], "Ticket not found", false)
  | t :: rest =>
    if t.ticket_id == tid then
      if t.seats_left > 0 then
        let t2 : Ticket := { t with seats_left := t.seats_left - 1 }
        (t2 :: rest, bookMsg tid t2.seats_left, true)
      else
        (t :: rest, "No seats left for this ticket", false)
    else
      let r := book_list tid rest
      (t :: r.1, r.2.1, r.2.2)

/-- `AirlineTicketSystem.book_ticket` (lines 57-66): scan for the first
matching ticket; on success decrement it and save the full list, otherwise
leave the storage untouched. -/
def book_ticket (st : SysState) (tid : String) : SysState × String :=
  let r := book_list tid st.tickets
  if r.2.2 then
    ({ tickets := r.1, storage := save_data r.1 st.storage }, r.2.1)
  else
    ({ st with tickets := r.1 }, r.2.1)

/-- Sample ticket used by concrete witnesses below (the record the unit
test `test_create_and_search_ticket` creates). -/
def tkSample : Ticket :=
  mkTicket "T001" "CA123" "Beijing" "Shanghai" "2024-12-01" 800 10

/-- Second sample ticket on the same route, with a different id. -/
def tkSample2 : Ticket :=
  mkTicket "T000" "ZZ111" "Beijing" "Shanghai" "2024-01-01" 100 5

/-- Ticket with an exhausted seat counter, for the sold-out witness. -/
def tkZero : Ticket :=
  mkTicket "T003" "HU789" "Chengdu" "Xian" "2024-12-03" 450 0

theorem book_list_no_match (tid : String) (ts : List Ticket)
    (h : ∀ t ∈ ts, t.ticket_id ≠ tid) :
    book_list tid ts = (ts, "Ticket not found", false) := by
  induction ts with
  | nil => rfl
  | cons t rest ih =>
    have ht : t.ticket_id ≠ tid := h t (List.mem_cons_self t rest)
    have hrest : ∀ u ∈ rest, u.ticket_id ≠ tid :=
      fun u hu => h u (List.mem_cons_of_mem t hu)
    simp [book_list, ht, ih hrest]

theorem book_list_first_success (tid : String) (pre post : List Ticket)
    (t : Ticket) (hpre : ∀ u ∈ pre, u.ticket_id ≠ tid)
    (hmatch : t.ticket_id = tid) (hseats : 0 < t.seats_left) :
    book_list tid (pre ++ t :: post)
      = (pre ++ { t with seats_left := t.seats_left - 1 } :: post,
         bookMsg tid (t.seats_left - 1), true) := by
  induction pre with
  | nil => simp [book_list, hmatch, hseats]
  | cons u pre ih =>
    have hu : u.ticket_id ≠ tid := hpre u (List.mem_cons_self u pre)
    have hpre2 : ∀ v ∈ pre, v.ticket_id ≠ tid :=
      fun v hv => hpre v (List.mem_cons_of_mem u hv)
    simp [book_list, hu, ih hpre2]

theorem book_list_first_soldout (tid : String) (pre post : List Ticket)
    (t : Ticket) (hpre : ∀ u ∈ pre, u.ticket_id ≠ tid)
    (hmatch : t.ticket_id = tid) (hseats : t.seats_left = 0) :
    book_list tid (pre ++ t :: post)
      = (pre ++ t :: post, "No seats left for this ticket", false) := by
  induction pre with
  | nil => simp [book_list, hmatch, hseats]
  | cons u pre ih =>
    have hu : u.ticket_id ≠ tid := hpre u (List.mem_cons_self u pre)
    have hpre2 : ∀ v ∈ pre, v.ticket_id ≠ tid :=
      fun v hv => hpre v (List.mem_cons_of_mem u hv)
    simp [book_list, hu, ih hpre2]

theorem book_list_nonneg (tid : String) (ts : List Ticket)
    (h : ∀ t ∈ ts, 0 ≤ t.seats_left) :
    ∀ t ∈ (book_list tid ts).1, 0 ≤ t.seats_left := by
  induction ts with
  | nil => simp [book_list]
  | cons t rest ih =>
    have ht : (0 : Int) ≤ t.seats_left := h t (List.mem_cons_self t rest)
    have hrest : ∀ u ∈ rest, 0 ≤ u.seats_left :=
      fun u hu => h u (List.mem_cons_of_mem t hu)
    intro u hu
    by_cases hid : t.ticket_id = tid
    · by_cases hs : 0 < t.seats_left
      · simp [book_list, hid, hs] at hu
        rcases hu with h1 | h2
        · subst h1; simp; omega
        · exact hrest u h2
      · simp [book_list, hid, hs] at hu
        rcases hu with h1 | h2
        · subst h1; exact ht
        · exact hrest u h2
    · simp [book_list, hid] at hu
      rcases hu with h1 | h2
      · subst h1; exact ht
      · exact ih hrest u h2

theorem book_ticket_fst_tickets (st : SysState) (tid : String) :
    (book_ticket st tid).1.tickets = (book_list tid st.tickets).1 := by
  simp only [book_ticket]
  split <;> rfl

/-- Claim C1: when the first ticket whose `ticket_id` equals the given id
has `seats_left > 0`, `book_ticket` decrements exactly that ticket's
`seats_left` by one, leaves every other ticket unchanged, saves the full
updated sequence to storage, and returns the success message carrying the
new remaining-seat count.  Instantiated at a freshly created ticket with
`seats_left = N` this yields `seats_left = N - 1`. -/
theorem book_success (st : SysState) (tid : String) (pre post : List Ticket)
    (t : Ticket) (hsplit : st.tickets = pre ++ t :: post)
    (hpre : ∀ u ∈ pre, u.ticket_id ≠ tid)
    (hmatch : t.ticket_id = tid) (hseats : 0 < t.seats_left) :
    book_ticket st tid
      = ({ tickets := pre ++ { t with seats_left := t.seats_left - 1 } :: post,
           storage := some (pre ++ { t with seats_left := t.seats_left - 1 } :: post) },
         bookMsg tid (t.seats_left - 1)) := by
  simp [book_ticket, hsplit,
    book_list_first_success tid pre post t hpre hmatch hseats, save_data]

/-- Concrete run of C1: the sample ticket starts with 10 seats and ends
with 9, the updated list is persisted, and the message reports 9. -/
theorem book_success_witness :
    book_ticket ⟨[tkSample], some [tkSample]⟩ "T001"
      = (⟨[mkTicket "T001" "CA123" "Beijing" "Shanghai" "2024-12-01" 800 9],
          some [mkTicket "T001" "CA123" "Beijing" "Shanghai" "2024-12-01" 800 9]⟩,
         bookMsg "T001" 9) :=
  book_success ⟨[tkSample], some [tkSample]⟩ "T001" [] [] tkSample rfl
    (by simp) rfl (by decide)

/-- Claim C3: when the first ticket whose `ticket_id` equals the given id
has `seats_left = 0`, `book_ticket` returns the sold-out sentinel string
as an ordinary value and changes nothing: the whole state (so in
particular that ticket's `seats_left`, still 0) is unchanged and nothing
is saved. -/
theorem book_soldout (st : SysState) (tid : String) (pre post : List Ticket)
    (t : Ticket) (hsplit : st.tickets = pre ++ t :: post)
    (hpre : ∀ u ∈ pre, u.ticket_id ≠ tid)
    (hmatch : t.ticket_id = tid) (hseats : t.seats_left = 0) :
    book_ticket st tid = (st, "No seats left for this ticket") := by
  obtain ⟨ts, sto⟩ := st
  have hsplit2 : ts = pre ++ t :: post := hsplit
  subst hsplit2
  simp [book_ticket, book_list_first_soldout tid pre post t hpre hmatch hseats]

/-- Concrete run of C3: booking the zero-seat ticket returns the sold-out
string and leaves the state (seat count still 0) untouched. -/
theorem book_soldout_witness :
    book_ticket ⟨[tkZero], some [tkZero]⟩ "T003"
      = (⟨[tkZero], some [tkZero]⟩, "No seats left for this ticket") :=
  book_soldout ⟨[tkZero], some [tkZero]⟩ "T003" [] [] tkZero rfl
    (by simp) rfl rfl

/-- Claim C4: when no ticket's `ticket_id` equals the given id,
`book_ticket` returns the not-found sentinel string as an ordinary value
and leaves every existing ticket, and the storage, unchanged. -/
theorem book_not_found (st : SysState) (tid : String)
    (h : ∀ t ∈ st.tickets, t.ticket_id ≠ tid) :
    book_ticket st tid = (st, "Ticket not found") := by
  obtain ⟨ts, sto⟩ := st
  simp [book_ticket, book_list_no_match tid ts (fun t ht => h t ht)]

/-- Concrete run of C4: booking an absent id returns the not-found string
and the state is unchanged. -/
theorem book_not_found_witness :
    book_ticket ⟨[tkSample], none⟩ "T999"
      = (⟨[tkSample], none⟩, "Ticket not found") :=
  book_not_found ⟨[tkSample], none⟩ "T999" (by decide)

/-- Claim C7: if every ticket has a non-negative `seats_left` then after
any `book_ticket` call every ticket still does: the decrement only fires
behind the `seats_left > 0` check, so booking never drives a counter
negative. -/
theorem book_preserves_nonneg (st : SysState) (tid : String)
    (h : ∀ t ∈ st.tickets, 0 ≤ t.seats_left) :
    ∀ t ∈ (book_ticket st tid).1.tickets, 0 ≤ t.seats_left := by
  intro t ht
  rw [book_ticket_fst_tickets] at ht
  exact book_list_nonneg tid st.tickets h t ht

/-- Concrete run of C7 on a two-ticket state with a successful booking. -/
theorem book_preserves_nonneg_witness :
    (∀ t ∈ ([tkSample, tkSample2] : List Ticket), 0 ≤ t.seats_left) ∧
      (∀ t ∈ (book_ticket ⟨[tkSample, tkSample2], none⟩ "T001").1.tickets,
        0 ≤ t.seats_left) :=
  ⟨by decide, book_preserves_nonneg ⟨[tkSample, tkSample2], none⟩ "T001" (by decide)⟩

/-- Claim C2: `search_tickets` returns exactly the tickets whose origin
and destination both equal the query after lowercasing (equality, not
substring), keeping list order (the matches form a sublist of the input);
when nothing matches it returns the `notFound` sentinel — a distinguished
constructor carrying a message, not an empty list and not an error. -/
theorem search_spec (ts : List Ticket) (o d : String) :
    search_tickets ts o d
      = (if ts.filter (matchesRoute o d) = []
         then SearchResult.notFound "No tickets found for this route"
         else SearchResult.found (ts.filter (matchesRoute o d))) ∧
    (∀ t, t ∈ ts.filter (matchesRoute o d)
      ↔ t ∈ ts ∧ strLower t.origin = strLower o
          ∧ strLower t.destination = strLower d) ∧
    (ts.filter (matchesRoute o d)).Sublist ts := by
  refine ⟨?_, ?_, List.filter_sublist ts⟩
  · by_cases h : ts.filter (matchesRoute o d) = [] <;>
      simp [search_tickets, List.isEmpty_iff, h]
  · intro t
    simp [List.mem_filter, matchesRoute, and_assoc]

/-- Claim C5: saving a list of tickets and loading from the same storage
returns the very same list — every record, every field, same order. -/
theorem save_load_roundtrip (d : List Ticket) (s : StorageState) :
    load_data (save_data d s) = d :=
  rfl

/-- Claim C8: `load_data` on an absent file (`none`, the
`FileNotFoundError` branch) returns the empty list rather than an error,
and on a present file returns exactly the previously persisted list. -/
theorem load_data_spec :
    load_data (none : StorageState) = [] ∧
      ∀ d : List Ticket, load_data (some d) = d :=
  ⟨rfl, fun _ => rfl⟩

/-- Claim C6: when both coercions succeed, `create_ticket` appends the
new ticket (built from the given fields with the coerced `price` and
`seats_left`) at the end of the in-memory list, persists the full list,
and returns the success string — for every state and every id, so
duplicate ids are accepted without any validation; when either coercion
fails the call surfaces the exception (`Except.error`) and neither the
list nor the storage is touched. -/
theorem create_spec (st : SysState) (tid fn og dst dt : String) :
    (∀ (p : Rat) (n : Int),
      create_ticket st tid fn og dst dt (some p) (some n)
        = Except.ok
            ({ tickets := st.tickets ++ [mkTicket tid fn og dst dt p n],
               storage := some (st.tickets ++ [mkTicket tid fn og dst dt p n]) },
             "Ticket created successfully")) ∧
    (∀ n? : Option Int,
      create_ticket st tid fn og dst dt none n? = Except.error "ValueError") ∧
    (∀ p? : Option Rat,
      create_ticket st tid fn og dst dt p? none = Except.error "ValueError") := by
  refine ⟨fun p n => rfl, fun n? => ?_, fun p? => ?_⟩
  · cases n? <;> rfl
  · cases p? <;> rfl

/-- Claim C10: `search_tickets` is read-only at the state level — the
method body is a comprehension over `self.tickets` with no assignment and
no `save_data` call, so the ticket list and the storage are returned
unchanged, every ticket field included. -/
theorem search_frame (st : SysState) (o d : String) :
    (searchSys st o d).1 = st ∧
      (searchSys st o d).1.tickets = st.tickets ∧
      (searchSys st o d).1.storage = st.storage :=
  ⟨rfl, rfl, rfl⟩

/-- Counterexample to claim C9 as stated (over every starting state):
starting from a state that already holds a ticket on the
Beijing-Shanghai route, creating another ticket on that route and then
searching the route returns two matches, not exactly one. -/
theorem create_then_search_cex :
    create_ticket ⟨[tkSample2], some [tkSample2]⟩ "T001" "CA123" "Beijing"
        "Shanghai" "2024-12-01" (some 800) (some 10)
      = Except.ok (⟨[tkSample2, tkSample], some [tkSample2, tkSample]⟩,
          "Ticket created successfully") ∧
    search_tickets [tkSample2, tkSample] "beijing" "SHANGHAI"
      = SearchResult.found [tkSample2, tkSample] ∧
    ([tkSample2, tkSample] : List Ticket).length = 2 :=
  ⟨rfl, by decide, rfl⟩

/-- Claim C9 (amended): for every starting state whose ticket list has no
ticket matching the new ticket's route case-insensitively, creating a
ticket and then searching by its origin and destination in any letter
casing returns exactly one match, whose `flight_num` is the created
ticket's `flight_num`. -/
theorem create_then_search (st : SysState) (tid fn og dst dt q1 q2 : String)
    (p : Rat) (n : Int)
    (hq1 : strLower q1 = strLower og) (hq2 : strLower q2 = strLower dst)
    (hfresh : st.tickets.filter (matchesRoute q1 q2) = []) :
    create_ticket st tid fn og dst dt (some p) (some n)
      = Except.ok
          ({ tickets := st.tickets ++ [mkTicket tid fn og dst dt p n],
             storage := some (st.tickets ++ [mkTicket tid fn og dst dt p n]) },
           "Ticket created successfully") ∧
    search_tickets (st.tickets ++ [mkTicket tid fn og dst dt p n]) q1 q2
      = SearchResult.found [mkTicket tid fn og dst dt p n] ∧
    (mkTicket tid fn og dst dt p n).flight_num = fn := by
  refine ⟨rfl, ?_, rfl⟩
  have hmatch : matchesRoute q1 q2 (mkTicket tid fn og dst dt p n) = true := by
    simp [matchesRoute, mkTicket, hq1, hq2]
  simp [search_tickets, List.filter_append, hfresh, hmatch]

/-- Concrete run of the amended C9: from the empty state, create the
sample ticket and search its route in a different casing; exactly the one
created ticket comes back and its `flight_num` is the one given. -/
theorem create_then_search_witness :
    create_ticket ⟨[], none⟩ "T001" "CA123" "Beijing" "Shanghai" "2024-12-01"
        (some 800) (some 10)
      = Except.ok (⟨[tkSample], some [tkSample]⟩, "Ticket created successfully") ∧
    search_tickets [tkSample] "beijing" "SHANGHAI"
      = SearchResult.found [tkSample] ∧
    tkSample.flight_num = "CA123" :=
  create_then_search ⟨[], none⟩ "T001" "CA123" "Beijing" "Shanghai" "2024-12-01"
    "beijing" "SHANGHAI" 800 10 (by decide) (by decide) rfl
